import Mathlib

/-!
# Koi-pond steering core: a shallow embedding

This file embeds the steering-force computation of the koi-pond simulation
(`src/main.ts`, class `Simulation`) together with the speed-envelope clamp of
the near-duplicate draft in the repository, and proves or refutes the spec's
claims about it.

Modelling conventions:
* 2D vectors are the structure `Vec` over `ℝ`; the matter-js `Vector` helpers
  used by the source (`add`, `sub`, `mult`, `magnitude`, `normalise`, `perp`,
  `angle`) are defined in the `Vec` namespace with matter-js's semantics.
* a matter-js `Body` is the structure `Body`: an identifier (standing for
  reference identity in `other !== body` checks), `position`, `velocity`,
  orientation `angle`, and the `isStatic` flag.
* the `Simulation` class instance is the structure `Simulation`, holding the
  scalar configuration fields its constructor sets and the world body list
  (`this.engine.world.bodies`).
* JavaScript `Math.atan2` is `atan2` below, defined through `Complex.arg`,
  which has the same range `(-π, π]` and the same quadrant behaviour.
* `forEach` accumulations and `for` loops are explicit structural recursions
  (`nearestScan`, `repulsionScan`, `gapScan`); `Array.prototype.filter` is
  `filterP`; `Array.prototype.sort` (stable in JS) is the stable insertion
  sort `sortBy`.
-/

open Real

noncomputable section

/-- A 2D vector (also used as a point), as matter-js's `{ x, y }` records. -/
structure Vec where
  x : ℝ
  y : ℝ
deriving DecidableEq

namespace Vec

/-- matter-js `Vector.add`. -/
def add (a b : Vec) : Vec := ⟨a.x + b.x, a.y + b.y⟩

/-- matter-js `Vector.sub`. -/
def sub (a b : Vec) : Vec := ⟨a.x - b.x, a.y - b.y⟩

/-- matter-js `Vector.mult` (vector times scalar). -/
def mult (v : Vec) (c : ℝ) : Vec := ⟨v.x * c, v.y * c⟩

/-- matter-js `Vector.magnitude`. -/
def magnitude (v : Vec) : ℝ := Real.sqrt (v.x ^ 2 + v.y ^ 2)

/-- matter-js `Vector.normalise`: the zero vector when the magnitude is zero,
`v / |v|` otherwise. -/
def normalise (v : Vec) : Vec :=
  if magnitude v = 0 then ⟨0, 0⟩ else ⟨v.x / magnitude v, v.y / magnitude v⟩

/-- matter-js `Vector.perp` (without the negate flag): `(-y, x)`. -/
def perp (v : Vec) : Vec := ⟨-v.y, v.x⟩

/-- matter-js `Vector.dot`. -/
def dot (a b : Vec) : ℝ := a.x * b.x + a.y * b.y

end Vec

/-- JavaScript `Math.atan2 y x`: the argument of the complex number `x + y i`,
with range `(-π, π]`. -/
def atan2 (y x : ℝ) : ℝ := Complex.arg ((x : ℂ) + (y : ℂ) * Complex.I)

/-- matter-js `Vector.angle(vectorA, vectorB)`: in matter-js this is
`Math.atan2(vectorB.y - vectorA.y, vectorB.x - vectorA.x)` — the bearing of
the segment *from the point `vectorA` to the point `vectorB`* — and not the
angle between the two vectors. -/
def Vec.angle (vectorA vectorB : Vec) : ℝ :=
  atan2 (vectorB.y - vectorA.y) (vectorB.x - vectorA.x)

/-- A matter-js body, as used by the steering code: `id` stands for reference
identity (`other !== body` between distinct world bodies), plus the fields the
steering code reads. -/
structure Body where
  id : ℕ
  position : Vec
  velocity : Vec
  angle : ℝ
  isStatic : Bool

/-- The `Simulation` class state read by the steering methods: the scalar
configuration set in the constructor and the world body list
(`this.engine.world.bodies`). -/
structure Simulation where
  geoScale : ℝ
  fieldOfViewDegrees : ℝ
  viewDistance : ℝ
  speedLimit : ℝ
  canvasWidth : ℝ
  canvasHeight : ℝ
  worldBodies : List Body

/-- The configuration the constructor of `Simulation` builds: `geoScale = 2`,
`fieldOfViewDegrees = 270`, `viewDistance = 200 * geoScale`, `speedLimit = 5`,
with the given canvas size and world bodies. -/
def koiSim (w h : ℝ) (bodies : List Body) : Simulation :=
  { geoScale := 2
    fieldOfViewDegrees := 270
    viewDistance := 200 * 2
    speedLimit := 5
    canvasWidth := w
    canvasHeight := h
    worldBodies := bodies }

open Classical in
/-- `Array.prototype.filter` with a propositional predicate. -/
def filterP {α : Type} (p : α → Prop) : List α → List α
  | [] => []
  | a :: rest => if p a then a :: filterP p rest else filterP p rest

open Classical in
/-- One insertion step of a stable insertion sort: place `a` before the first
element `b` with `le a b`. -/
def insertSorted {α : Type} (le : α → α → Prop) (a : α) : List α → List α
  | [] => [a]
  | b :: rest => if le a b then a :: b :: rest else b :: insertSorted le a rest

/-- `Array.prototype.sort` with an ascending comparator: a stable sort
(JavaScript's sort is stable, and for the numeric comparators the source uses
any sort gives the ascending order). -/
def sortBy {α : Type} (le : α → α → Prop) (l : List α) : List α :=
  l.foldr (insertSorted le) []

/-- `calculateRepulsionForce(currentDistance, comfortableDistance, baseForce)`:
quadratic ramp-up inside the comfortable distance, zero outside. -/
def calculateRepulsionForce (currentDistance comfortableDistance baseForce : ℝ) : ℝ :=
  if currentDistance < comfortableDistance then
    baseForce * ((comfortableDistance - currentDistance) / comfortableDistance) ^ 2
  else 0

/-- `getCurrentForce(body)`: the tangential (perpendicular) unit direction
around the canvas center, scaled by `distanceToCenter / maxDistance * 2`.
Reads only `body.position` and the canvas dimensions. -/
def getCurrentForce (sim : Simulation) (body : Body) : Vec :=
  let toCenter := Vec.sub ⟨sim.canvasWidth / 2, sim.canvasHeight / 2⟩ body.position
  let distanceToCenter := Vec.magnitude toCenter
  let maxDistance := Real.sqrt ((sim.canvasWidth / 2) ^ 2 + (sim.canvasHeight / 2) ^ 2)
  let forceScale := distanceToCenter / maxDistance * 2
  Vec.mult (Vec.normalise (Vec.perp toCenter)) forceScale

/-- `steerTowards(body, angle)`: the unit vector from the body toward a target
point 100 units away along `angle`. -/
def steerTowards (body : Body) (angle : ℝ) : Vec :=
  let targetPointDistance : ℝ := 100
  let targetPoint : Vec :=
    ⟨body.position.x + Real.cos angle * targetPointDistance,
     body.position.y + Real.sin angle * targetPointDistance⟩
  let desiredDirection := Vec.sub targetPoint body.position
  Vec.normalise desiredDirection

open Classical in
/-- The `forEach` accumulation inside `getDistanceToNearestBody`: scan the
world bodies, and for every *non-static* body other than the scanned one that
is closer than the current minimum, shrink the minimum if the raw difference
`|angle - atan2(toOther)|` is at most 10 degrees. -/
def nearestScan (body : Body) (angle : ℝ) : List Body → ℝ → ℝ
  | [], minDistance => minDistance
  | other :: rest, minDistance =>
    let toOther := Vec.sub other.position body.position
    let distance := Vec.magnitude toOther
    let minDistance' :=
      if other.id ≠ body.id ∧ other.isStatic = false then
        if distance < minDistance then
          if |angle - atan2 toOther.y toOther.x| ≤ 10 * π / 180 then distance
          else minDistance
        else minDistance
      else minDistance
    nearestScan body angle rest minDistance'

/-- `getDistanceToNearestBody(body, angle, searchRadius)`: probe
`this.engine.world.bodies` along `angle`, starting from `searchRadius`. -/
def getDistanceToNearestBody (sim : Simulation) (body : Body) (angle searchRadius : ℝ) : ℝ :=
  nearestScan body angle sim.worldBodies searchRadius

/-- `isCircleClear(body, angle, radius, visibleBodies)`: no visible body lies
strictly inside the circle of the given radius centred `radius` away from the
body along `angle`. -/
def isCircleClear (body : Body) (angle radius : ℝ) (visibleBodies : List Body) : Prop :=
  let circleCenter := Vec.add body.position (Vec.mult ⟨Real.cos angle, Real.sin angle⟩ radius)
  ¬ ∃ other ∈ visibleBodies, Vec.magnitude (Vec.sub circleCenter other.position) < radius

open Classical in
/-- The `for` loop of `getSocialForce` over consecutive sorted bearings: the
accumulator is `(largestGap, gapMidpoint, gapRadius)`, updated only when the
gap beats the running largest, lies strictly between `minGap` and `maxGap`,
and its clearance circle is clear. -/
def gapScan (sim : Simulation) (body : Body) (neighborsInView : List Body)
    (scaledRadius minGap maxGap : ℝ) : List ℝ → ℝ × ℝ × ℝ → ℝ × ℝ × ℝ
  | a :: b :: rest, acc =>
    let gap := b - a
    let acc' :=
      if gap > acc.1 ∧ gap > minGap ∧ gap < maxGap then
        let midpointAngle := a + gap / 2
        let distanceToNearestBody := getDistanceToNearestBody sim body midpointAngle scaledRadius
        let circleRadius := distanceToNearestBody / 2
        if isCircleClear body midpointAngle circleRadius neighborsInView then
          (gap, midpointAngle, circleRadius)
        else acc
      else acc
    gapScan sim body neighborsInView scaledRadius minGap maxGap (b :: rest) acc'
  | _, acc => acc

open Classical in
/-- `getSocialForce(body, radius)`: sort the bearings of the visible
neighbors, append the wraparound bearing `angles[0] + 2π`, scan consecutive
pairs for the largest clear gap between `minGap` (10°) and `maxGap` (90°), and
steer toward its midpoint; the zero vector when there is no neighbor or no
valid gap. `neighborsInView` is the per-tick cache `body.neighborsInView`. -/
def getSocialForce (sim : Simulation) (body : Body) (neighborsInView : List Body)
    (radius : ℝ) : Vec :=
  let scaledRadius := radius * sim.geoScale
  let minGap := 10 * π / 180
  let maxGap := 90 * π / 180
  if neighborsInView = [] then ⟨0, 0⟩
  else
    let angles := sortBy (fun a b => a ≤ b) (neighborsInView.map (fun other =>
      atan2 (Vec.sub other.position body.position).y (Vec.sub other.position body.position).x))
    let angles2 := angles ++ [angles.headI + 2 * π]
    let result := gapScan sim body neighborsInView scaledRadius minGap maxGap angles2 (0, 0, 0)
    if result.1 > minGap ∧ result.2.2 > 0 then steerTowards body result.2.1 else ⟨0, 0⟩

open Classical in
/-- The `forEach` accumulation inside `getAntiSocialForce`. -/
def repulsionScan (body : Body) (scaledRadius baseForce speedScalingFactor : ℝ) :
    List Body → Vec → Vec
  | [], acc => acc
  | other :: rest, acc =>
    let acc' :=
      if other.id = body.id then acc
      else
        let distanceVector := Vec.sub body.position other.position
        let distance := Vec.magnitude distanceVector
        if distance < scaledRadius then
          Vec.add acc (Vec.mult (Vec.normalise distanceVector)
            (calculateRepulsionForce distance scaledRadius baseForce * speedScalingFactor))
        else acc
    repulsionScan body scaledRadius baseForce speedScalingFactor rest acc'

/-- `getAntiSocialForce(body, radius, baseForce)`: sum, over the cached
visible neighbors strictly inside `radius * geoScale`, of the normalized
away-from-neighbor direction times the quadratic repulsion magnitude times the
speed scaling factor `min(max(|velocity|, 1), 2)`. -/
def getAntiSocialForce (sim : Simulation) (body : Body) (neighborsInView : List Body)
    (radius baseForce : ℝ) : Vec :=
  let scaledRadius := radius * sim.geoScale
  let speedScalingFactor := min (max (Vec.magnitude body.velocity) 1) 2
  repulsionScan body scaledRadius baseForce speedScalingFactor neighborsInView ⟨0, 0⟩

open Classical in
/-- `getVisibleBodies(body)`: bodies other than `body` within the square
region of half-side `viewDistance` (matter-js `Query.region` keeps every body
whose bounds overlap that box; every body whose centre is in the box
qualifies, and the later `distance <= searchRadius` filter only keeps bodies
whose centre is in the box, so testing centres gives the same final list),
passing the `Vector.angle`-based view test and the circular distance test,
sorted by ascending distance to `body` (JavaScript's stable sort). -/
def getVisibleBodies (sim : Simulation) (body : Body) : List Body :=
  let fieldOfViewRadians := sim.fieldOfViewDegrees * π / 180
  let searchRadius := sim.viewDistance
  let bodiesInRegion := filterP (fun other =>
    body.position.x - searchRadius ≤ other.position.x ∧
    other.position.x ≤ body.position.x + searchRadius ∧
    body.position.y - searchRadius ≤ other.position.y ∧
    other.position.y ≤ body.position.y + searchRadius) sim.worldBodies
  let filtered := filterP (fun other =>
    other.id ≠ body.id ∧
    Vec.angle ⟨Real.cos body.angle, Real.sin body.angle⟩ (Vec.sub other.position body.position)
      ≤ fieldOfViewRadians / 2 ∧
    Vec.magnitude (Vec.sub other.position body.position) ≤ searchRadius) bodiesInRegion
  sortBy (fun a b =>
    Vec.magnitude (Vec.sub body.position a.position)
      ≤ Vec.magnitude (Vec.sub body.position b.position)) filtered

open Classical in
/-- The "Enforce speed limit" step of `manageBodyDynamics` in `src/main.ts`:
rescale the velocity to `speedLimit` when its magnitude exceeds it; there is
no lower clamp in this file. -/
def enforceSpeedLimit (sim : Simulation) (velocity : Vec) : Vec :=
  if Vec.magnitude velocity > sim.speedLimit then
    Vec.mult (Vec.normalise velocity) sim.speedLimit
  else velocity

open Classical in
/-- The "Enforce velocity envelope" step of `manageBodyDynamics` in the draft
file of the repository (`maxSpeed = 5`, `minSpeed = 1` there): rescale down to
`maxSpeed` above the maximum, rescale up to `minSpeed` below the minimum. -/
def enforceVelocityEnvelope (maxSpeed minSpeed : ℝ) (velocity : Vec) : Vec :=
  if Vec.magnitude velocity > maxSpeed then Vec.mult (Vec.normalise velocity) maxSpeed
  else if Vec.magnitude velocity < minSpeed then Vec.mult (Vec.normalise velocity) minSpeed
  else velocity

/-- A concrete observer at the origin, heading 0, used in the clear-gap
scenario below. -/
def observerBody : Body := ⟨1, ⟨0, 0⟩, ⟨0, 0⟩, 0, false⟩

/-- A neighbor of the observer 100 units due east (bearing 0°). -/
def neighborEast : Body := ⟨2, ⟨100, 0⟩, ⟨0, 0⟩, 0, false⟩

/-- A neighbor of the observer 100 units away at bearing 60° (`π/3`): the
point `(50, 50√3)`. -/
def neighborNE : Body := ⟨3, ⟨50, 50 * Real.sqrt 3⟩, ⟨0, 0⟩, 0, false⟩

/-- The world for the clear-gap scenario: the observer and its two
neighbors. -/
def gapWitnessSim : Simulation := koiSim 800 600 [observerBody, neighborEast, neighborNE]

/-- Modelled from the spec: "the angle between `agent.heading`-direction and
the vector to the candidate" — the unsigned angle `arccos (⟨u,v⟩ / (|u||v|))`
between two plane vectors. Used only to compare the spec's field-of-view test
with the code's. -/
def specAngleBetween (u v : Vec) : ℝ :=
  Real.arccos (Vec.dot u v / (Vec.magnitude u * Vec.magnitude v))

end

/-! ## Basic vector lemmas -/

theorem Vec.magnitude_nonneg (v : Vec) : 0 ≤ Vec.magnitude v :=
  Real.sqrt_nonneg _

theorem Vec.magnitude_eq_zero_iff (v : Vec) : Vec.magnitude v = 0 ↔ v = ⟨0, 0⟩ := by
  unfold Vec.magnitude
  rw [Real.sqrt_eq_zero (by positivity)]
  constructor
  · intro h
    have hx : v.x = 0 := by nlinarith [sq_nonneg v.x, sq_nonneg v.y]
    have hy : v.y = 0 := by nlinarith [sq_nonneg v.x, sq_nonneg v.y]
    cases v
    simp_all
  · intro h
    rw [h]
    norm_num

theorem Vec.magnitude_mult (v : Vec) (c : ℝ) :
    Vec.magnitude (Vec.mult v c) = Vec.magnitude v * |c| := by
  unfold Vec.magnitude Vec.mult
  rw [show (v.x * c) ^ 2 + (v.y * c) ^ 2 = (v.x ^ 2 + v.y ^ 2) * c ^ 2 by ring,
    Real.sqrt_mul (by positivity), Real.sqrt_sq_eq_abs]

theorem Vec.normalise_eq_mult (v : Vec) (h : Vec.magnitude v ≠ 0) :
    Vec.normalise v = Vec.mult v (Vec.magnitude v)⁻¹ := by
  unfold Vec.normalise Vec.mult
  rw [if_neg h, div_eq_mul_inv, div_eq_mul_inv]

theorem Vec.magnitude_normalise (v : Vec) (h : v ≠ ⟨0, 0⟩) :
    Vec.magnitude (Vec.normalise v) = 1 := by
  have hm : Vec.magnitude v ≠ 0 := fun hc => h ((Vec.magnitude_eq_zero_iff v).mp hc)
  have hmpos : 0 < Vec.magnitude v := lt_of_le_of_ne (Vec.magnitude_nonneg v) (Ne.symm hm)
  rw [Vec.normalise_eq_mult v hm, Vec.magnitude_mult, abs_inv, abs_of_pos hmpos]
  field_simp

theorem Vec.normalise_zero : Vec.normalise ⟨0, 0⟩ = ⟨0, 0⟩ := by
  unfold Vec.normalise
  rw [if_pos]
  rw [Vec.magnitude_eq_zero_iff]

theorem Vec.normalise_neg (u : Vec) :
    Vec.normalise ⟨-u.x, -u.y⟩ = Vec.mult (Vec.normalise u) (-1) := by
  have hmag : Vec.magnitude ⟨-u.x, -u.y⟩ = Vec.magnitude u := by
    unfold Vec.magnitude
    norm_num
  unfold Vec.normalise Vec.mult
  rw [hmag]
  by_cases h : Vec.magnitude u = 0
  · rw [if_pos h, if_pos h]
    norm_num
  · rw [if_neg h, if_neg h]
    congr 1 <;> field_simp

/-! ## atan2 facts -/

/-- `atan2` recovers the polar angle: for `r > 0` and `θ ∈ (-π, π]`,
`atan2 (r sin θ) (r cos θ) = θ`. -/
theorem atan2_polar (r θ : ℝ) (hr : 0 < r) (hθ : θ ∈ Set.Ioc (-π) π) :
    atan2 (r * Real.sin θ) (r * Real.cos θ) = θ := by
  unfold atan2
  have : ((r * Real.cos θ : ℝ) : ℂ) + ((r * Real.sin θ : ℝ) : ℂ) * Complex.I
      = (r : ℂ) * (Real.cos θ + Real.sin θ * Complex.I) := by
    push_cast
    ring
  rw [this, Complex.arg_real_mul _ hr, Complex.ofReal_cos, Complex.ofReal_sin,
    Complex.arg_cos_add_sin_mul_I hθ]

/-- `atan2 y x < 0` whenever `y < 0`. -/
theorem atan2_neg_of_neg (y x : ℝ) (hy : y < 0) : atan2 y x < 0 := by
  unfold atan2
  rw [Complex.arg_neg_iff]
  simp [hy]

/-- `atan2 y x ≤ π` always. -/
theorem atan2_le_pi (y x : ℝ) : atan2 y x ≤ π :=
  Complex.arg_le_pi _

/-! ## List helper facts -/

theorem mem_filterP {α : Type} (p : α → Prop) (l : List α) (x : α) :
    x ∈ filterP p l ↔ x ∈ l ∧ p x := by
  induction l with
  | nil => simp [filterP]
  | cons a rest ih =>
    unfold filterP
    split_ifs with h
    · simp only [List.mem_cons, ih]
      constructor
      · rintro (rfl | ⟨hx, hp⟩)
        · exact ⟨Or.inl rfl, h⟩
        · exact ⟨Or.inr hx, hp⟩
      · rintro ⟨rfl | hx, hp⟩
        · exact Or.inl rfl
        · exact Or.inr ⟨hx, hp⟩
    · simp only [List.mem_cons, ih]
      constructor
      · rintro ⟨hx, hp⟩
        exact ⟨Or.inr hx, hp⟩
      · rintro ⟨rfl | hx, hp⟩
        · exact absurd hp h
        · exact ⟨hx, hp⟩

theorem mem_insertSorted {α : Type} (le : α → α → Prop) (a x : α) (l : List α) :
    x ∈ insertSorted le a l ↔ x = a ∨ x ∈ l := by
  induction l with
  | nil => simp [insertSorted]
  | cons b rest ih =>
    unfold insertSorted
    split_ifs with h
    · simp [List.mem_cons]
    · simp only [List.mem_cons, ih]
      tauto

theorem mem_sortBy {α : Type} (le : α → α → Prop) (l : List α) (x : α) :
    x ∈ sortBy le l ↔ x ∈ l := by
  induction l with
  | nil => simp [sortBy]
  | cons a rest ih =>
    unfold sortBy at *
    simp only [List.foldr_cons, mem_insertSorted, List.mem_cons, ih]

/-! ## Claim C7 — empty neighbor set -/

/-- Claim C7: with zero visible neighbors, gap steering (`getSocialForce`)
returns the no-gap result — the zero vector — and personal-space repulsion
(`getAntiSocialForce`) returns the zero vector; an empty neighbor set is a
valid state yielding zero force from those terms, not an error. -/
theorem noNeighborZeroForce (sim : Simulation) (body : Body) (radius baseForce : ℝ) :
    getSocialForce sim body [] radius = ⟨0, 0⟩ ∧
    getAntiSocialForce sim body [] radius baseForce = ⟨0, 0⟩ := by
  constructor
  · unfold getSocialForce
    simp
  · unfold getAntiSocialForce repulsionScan
    simp

/-! ## Claim C9 — purity of the ambient current force -/

/-- Claim C9: `getCurrentForce` reads only the body's position (and the fixed
canvas geometry): two bodies at the same position receive the same current
force, whatever their velocities, headings, static flags or identifiers — in
particular whatever their neighbor sets, which the function never consults. -/
theorem getCurrentForcePure (sim : Simulation) (b1 b2 : Body)
    (h : b1.position = b2.position) : getCurrentForce sim b1 = getCurrentForce sim b2 := by
  unfold getCurrentForce
  rw [h]

/-- Witness for `getCurrentForcePure`: two concrete bodies at the same
position with different velocities, headings and static flags. -/
theorem getCurrentForcePureWitness :
    getCurrentForce (koiSim 800 600 []) ⟨1, ⟨3, 4⟩, ⟨1, 0⟩, 0, false⟩
      = getCurrentForce (koiSim 800 600 []) ⟨2, ⟨3, 4⟩, ⟨0, -7⟩, 1, true⟩ :=
  getCurrentForcePure (koiSim 800 600 []) ⟨1, ⟨3, 4⟩, ⟨1, 0⟩, 0, false⟩
    ⟨2, ⟨3, 4⟩, ⟨0, -7⟩, 1, true⟩ rfl

theorem Vec.magnitude_axis (a : ℝ) : Vec.magnitude ⟨a, 0⟩ = |a| := by
  unfold Vec.magnitude
  rw [show a ^ 2 + (0:ℝ) ^ 2 = a ^ 2 by ring, Real.sqrt_sq_eq_abs]

/-! ## Claim C3 — speed envelope -/

/-- Claim C3 counterexample: the claim promises speed in `[min_speed,
max_speed]` after the composer "for any starting velocity including zero".
In the draft's envelope (`maxSpeed = 5`, `minSpeed = 1`) a zero starting
velocity stays at speed 0 (normalising the zero vector gives the zero
vector), and in `src/main.ts` there is no lower clamp at all: a starting
speed of 1/2 stays 1/2. Both are below the minimum 1. -/
theorem speedEnvelopeCounterexample :
    Vec.magnitude (enforceVelocityEnvelope 5 1 ⟨0, 0⟩) = 0 ∧
    Vec.magnitude (enforceSpeedLimit (koiSim 800 600 []) ⟨1 / 2, 0⟩) = 1 / 2 ∧
    (0 : ℝ) < 1 ∧ (1 / 2 : ℝ) < 1 := by
  have h0 : Vec.magnitude ⟨0, 0⟩ = 0 := by
    rw [Vec.magnitude_axis]
    norm_num
  have hh : Vec.magnitude ⟨1 / 2, 0⟩ = 1 / 2 := by
    rw [Vec.magnitude_axis]
    norm_num
  refine ⟨?_, ?_, by norm_num, by norm_num⟩
  · unfold enforceVelocityEnvelope
    rw [h0, if_neg (by norm_num), if_pos (by norm_num), Vec.normalise_zero]
    show Vec.magnitude ⟨0 * 1, 0 * 1⟩ = 0
    rw [show (0:ℝ) * 1 = 0 by ring, h0]
  · unfold enforceSpeedLimit
    rw [hh, if_neg (by norm_num [koiSim]), hh]

/-- Claim C3 as amended: after the clamp in `src/main.ts` every speed is at
most `speedLimit` (for a positive limit), and the draft's envelope keeps any
*nonzero* starting velocity in `[minSpeed, maxSpeed] = [1, 5]`; a zero
starting velocity is the one exception, and `src/main.ts` enforces no lower
bound at all. -/
theorem speedEnvelopeAmended :
    (∀ (sim : Simulation) (v : Vec), 0 < sim.speedLimit →
      Vec.magnitude (enforceSpeedLimit sim v) ≤ sim.speedLimit) ∧
    (∀ v : Vec, v ≠ ⟨0, 0⟩ →
      1 ≤ Vec.magnitude (enforceVelocityEnvelope 5 1 v) ∧
      Vec.magnitude (enforceVelocityEnvelope 5 1 v) ≤ 5) := by
  constructor
  · intro sim v hpos
    unfold enforceSpeedLimit
    split_ifs with h
    · have hv : v ≠ ⟨0, 0⟩ := by
        intro hz
        rw [hz, (Vec.magnitude_eq_zero_iff _).mpr rfl] at h
        exact absurd (lt_trans hpos h) (lt_irrefl _)
      rw [Vec.magnitude_mult, Vec.magnitude_normalise v hv, one_mul,
        abs_of_pos hpos]
    · exact le_of_not_lt h
  · intro v hv
    unfold enforceVelocityEnvelope
    split_ifs with h1 h2
    · rw [Vec.magnitude_mult, Vec.magnitude_normalise v hv, one_mul]
      norm_num
    · rw [Vec.magnitude_mult, Vec.magnitude_normalise v hv, one_mul]
      norm_num
    · exact ⟨le_of_not_lt h2, le_of_not_lt h1⟩

/-- Witness for `speedEnvelopeAmended`, at the concrete velocity `(13, 0)`. -/
theorem speedEnvelopeAmendedWitness :
    Vec.magnitude (enforceSpeedLimit (koiSim 800 600 []) ⟨13, 0⟩)
        ≤ (koiSim 800 600 []).speedLimit ∧
    (1 ≤ Vec.magnitude (enforceVelocityEnvelope 5 1 ⟨13, 0⟩) ∧
      Vec.magnitude (enforceVelocityEnvelope 5 1 ⟨13, 0⟩) ≤ 5) :=
  ⟨speedEnvelopeAmended.1 (koiSim 800 600 []) ⟨13, 0⟩ (by norm_num [koiSim]),
    speedEnvelopeAmended.2 ⟨13, 0⟩ (by
      intro h
      have hx := congrArg Vec.x h
      norm_num at hx)⟩

theorem Vec.add_zero_left (v : Vec) : Vec.add ⟨0, 0⟩ v = v := by
  cases v
  simp [Vec.add]

theorem Vec.magnitude_neg (u : Vec) : Vec.magnitude ⟨-u.x, -u.y⟩ = Vec.magnitude u := by
  unfold Vec.magnitude
  norm_num

theorem Vec.sub_add_cancel' (p u : Vec) : Vec.sub p (Vec.add p u) = ⟨-u.x, -u.y⟩ := by
  simp only [Vec.sub, Vec.add, Vec.mk.injEq]
  constructor <;> ring

theorem Vec.sub_sub_cancel' (p u : Vec) : Vec.sub p (Vec.sub p u) = u := by
  cases u
  simp [Vec.sub]

/-- Evaluation of `getAntiSocialForce` on a single in-range neighbor: the
normalized away-from-neighbor direction, scaled by the quadratic repulsion
magnitude times the speed scaling factor `min(max(|velocity|, 1), 2)`. -/
theorem getAntiSocialForce_single (sim : Simulation) (body other : Body)
    (radius baseForce : ℝ) (hid : ¬ other.id = body.id)
    (hlt : Vec.magnitude (Vec.sub body.position other.position) < radius * sim.geoScale) :
    getAntiSocialForce sim body [other] radius baseForce =
      Vec.mult (Vec.normalise (Vec.sub body.position other.position))
        (calculateRepulsionForce (Vec.magnitude (Vec.sub body.position other.position))
          (radius * sim.geoScale) baseForce * min (max (Vec.magnitude body.velocity) 1) 2) := by
  simp only [getAntiSocialForce, repulsionScan]
  rw [if_neg hid, if_pos hlt, Vec.add_zero_left]

/-! ## Claim C8 — personal-space repulsion -/

/-- Claim C8 as amended: each in-range neighbor's repulsion contribution has
magnitude equal to the quadratic falloff `baseForce * ((R - d)/R)^2`
*multiplied by the per-agent speed scaling factor `min(max(|velocity|,1),2)`*
(the literal falloff laws of the claim hold only for agents of speed at most
1); the falloff is monotonically decreasing in distance and bounded by
`baseForce` (so the contribution is bounded by `2 * baseForce`, with no
singularity at distance 0); the direction is away from the neighbor,
normalized; and two neighbors at equal distance in exactly opposite
directions cancel to the zero vector. -/
theorem antiSocialRepulsionAmended :
    (∀ d1 d2 R f : ℝ, 0 ≤ f → 0 < R → 0 ≤ d1 → d1 ≤ d2 →
      calculateRepulsionForce d2 R f ≤ calculateRepulsionForce d1 R f) ∧
    (∀ d R f : ℝ, 0 ≤ d → 0 < R → 0 ≤ f → calculateRepulsionForce d R f ≤ f) ∧
    (∀ (sim : Simulation) (body other : Body) (radius baseForce : ℝ),
      ¬ other.id = body.id →
      Vec.magnitude (Vec.sub body.position other.position) < radius * sim.geoScale →
      getAntiSocialForce sim body [other] radius baseForce =
        Vec.mult (Vec.normalise (Vec.sub body.position other.position))
          (calculateRepulsionForce (Vec.magnitude (Vec.sub body.position other.position))
            (radius * sim.geoScale) baseForce * min (max (Vec.magnitude body.velocity) 1) 2)) ∧
    (∀ (sim : Simulation) (body n1 n2 : Body) (radius baseForce : ℝ) (u : Vec),
      ¬ n1.id = body.id → ¬ n2.id = body.id →
      n1.position = Vec.add body.position u → n2.position = Vec.sub body.position u →
      getAntiSocialForce sim body [n1, n2] radius baseForce = ⟨0, 0⟩) := by
  refine ⟨?_, ?_, ?_, ?_⟩
  · intro d1 d2 R f hf hR hd1 hd12
    unfold calculateRepulsionForce
    split_ifs with h1 h2
    · have ha : 0 ≤ (R - d2) / R := div_nonneg (by linarith) hR.le
      have hab : (R - d2) / R ≤ (R - d1) / R := by
        rw [div_le_div_iff_of_pos_right hR]
        linarith
      exact mul_le_mul_of_nonneg_left (pow_le_pow_left₀ ha hab 2) hf
    · exact absurd (lt_of_le_of_lt hd12 h1) h2
    · positivity
    · exact le_refl 0
  · intro d R f hd hR hf
    unfold calculateRepulsionForce
    split_ifs with h
    · have ht0 : 0 ≤ (R - d) / R := div_nonneg (by linarith) hR.le
      have ht1 : (R - d) / R ≤ 1 := by
        rw [div_le_one hR]
        linarith
      nlinarith [mul_nonneg hf (mul_nonneg (sub_nonneg.mpr ht1) (by linarith : (0:ℝ) ≤ 1 + (R - d) / R))]
    · exact hf
  · intro sim body other radius baseForce hid hlt
    exact getAntiSocialForce_single sim body other radius baseForce hid hlt
  · intro sim body n1 n2 radius baseForce u hid1 hid2 hp1 hp2
    simp only [getAntiSocialForce, repulsionScan]
    rw [if_neg hid1, if_neg hid2, hp1, hp2, Vec.sub_add_cancel', Vec.sub_sub_cancel',
      Vec.magnitude_neg, Vec.normalise_neg]
    split_ifs with h
    · cases hnu : Vec.normalise u with
      | mk nx ny =>
        simp only [Vec.add, Vec.mult]
        rw [Vec.mk.injEq]
        constructor <;> ring
    · rfl

/-- Witness for `antiSocialRepulsionAmended`, at concrete inputs: distances 50
and 75 against comfort radius 100 and base force 2; a single in-range neighbor
50 to the right; two opposite neighbors at distance 50. -/
theorem antiSocialRepulsionAmendedWitness :
    calculateRepulsionForce 75 100 2 ≤ calculateRepulsionForce 50 100 2 ∧
    calculateRepulsionForce 50 100 2 ≤ 2 ∧
    getAntiSocialForce (koiSim 800 600 []) ⟨1, ⟨0, 0⟩, ⟨2, 0⟩, 0, false⟩
        [⟨2, ⟨50, 0⟩, ⟨0, 0⟩, 0, false⟩] 50 2 =
      Vec.mult (Vec.normalise (Vec.sub (⟨0, 0⟩ : Vec) ⟨50, 0⟩))
        (calculateRepulsionForce (Vec.magnitude (Vec.sub (⟨0, 0⟩ : Vec) ⟨50, 0⟩))
          (50 * (koiSim 800 600 []).geoScale) 2 * min (max (Vec.magnitude ⟨2, 0⟩) 1) 2) ∧
    getAntiSocialForce (koiSim 800 600 []) ⟨1, ⟨0, 0⟩, ⟨2, 0⟩, 0, false⟩
        [⟨2, ⟨30, 40⟩, ⟨0, 0⟩, 0, false⟩, ⟨3, ⟨-30, -40⟩, ⟨0, 0⟩, 0, false⟩] 50 2 = ⟨0, 0⟩ :=
  ⟨antiSocialRepulsionAmended.1 50 75 100 2 (by norm_num) (by norm_num) (by norm_num)
      (by norm_num),
    antiSocialRepulsionAmended.2.1 50 100 2 (by norm_num) (by norm_num) (by norm_num),
    antiSocialRepulsionAmended.2.2.1 (koiSim 800 600 []) ⟨1, ⟨0, 0⟩, ⟨2, 0⟩, 0, false⟩
      ⟨2, ⟨50, 0⟩, ⟨0, 0⟩, 0, false⟩ 50 2 (by norm_num)
      (by
        show Vec.magnitude (Vec.sub ⟨0, 0⟩ ⟨50, 0⟩) < 50 * (koiSim 800 600 []).geoScale
        have h1 : Vec.sub (⟨0, 0⟩ : Vec) ⟨50, 0⟩ = (⟨-50, 0⟩ : Vec) := by
          simp only [Vec.sub, Vec.mk.injEq]
          norm_num
        rw [h1, Vec.magnitude_axis]
        norm_num [koiSim]),
    antiSocialRepulsionAmended.2.2.2 (koiSim 800 600 []) ⟨1, ⟨0, 0⟩, ⟨2, 0⟩, 0, false⟩
      ⟨2, ⟨30, 40⟩, ⟨0, 0⟩, 0, false⟩ ⟨3, ⟨-30, -40⟩, ⟨0, 0⟩, 0, false⟩ 50 2 ⟨30, 40⟩
      (by norm_num) (by norm_num)
      (by
        show (⟨30, 40⟩ : Vec) = Vec.add ⟨0, 0⟩ ⟨30, 40⟩
        simp only [Vec.add, Vec.mk.injEq]
        norm_num)
      (by
        show (⟨-30, -40⟩ : Vec) = Vec.sub ⟨0, 0⟩ ⟨30, 40⟩
        simp only [Vec.sub, Vec.mk.injEq]
        norm_num)⟩

/-- Claim C8 counterexample: for an agent moving at speed 2 (speed scaling
factor 2), the single in-range neighbor's contribution has magnitude 1 at
distance 50 and 1/4 at distance 75 (comfort radius `50 * geoScale = 100`,
base force 2). Magnitude 1 is not the claimed quadratic value
`2 * ((100-50)/100)^2 = 1/2`, and no single inverse-square constant fits
both measured magnitudes. -/
theorem antiSocialRepulsionCounterexample :
    getAntiSocialForce (koiSim 800 600 []) ⟨1, ⟨0, 0⟩, ⟨2, 0⟩, 0, false⟩
        [⟨2, ⟨50, 0⟩, ⟨0, 0⟩, 0, false⟩] 50 2 = ⟨-1, 0⟩ ∧
    getAntiSocialForce (koiSim 800 600 []) ⟨1, ⟨0, 0⟩, ⟨2, 0⟩, 0, false⟩
        [⟨2, ⟨75, 0⟩, ⟨0, 0⟩, 0, false⟩] 50 2 = ⟨-(1 / 4), 0⟩ ∧
    Vec.magnitude ⟨-1, 0⟩ ≠ 2 * ((100 - 50) / 100) ^ 2 ∧
    ∀ k : ℝ, k / 50 ^ 2 = Vec.magnitude (⟨-1, 0⟩ : Vec) →
      k / 75 ^ 2 ≠ Vec.magnitude (⟨-(1 / 4), 0⟩ : Vec) := by
  have hv2 : Vec.magnitude ⟨2, 0⟩ = 2 := by
    rw [Vec.magnitude_axis]
    norm_num
  have hsub50 : Vec.sub (⟨0, 0⟩ : Vec) ⟨50, 0⟩ = (⟨-50, 0⟩ : Vec) := by
    simp only [Vec.sub, Vec.mk.injEq]
    norm_num
  have hsub75 : Vec.sub (⟨0, 0⟩ : Vec) ⟨75, 0⟩ = (⟨-75, 0⟩ : Vec) := by
    simp only [Vec.sub, Vec.mk.injEq]
    norm_num
  have hm50 : Vec.magnitude ⟨-50, 0⟩ = 50 := by
    rw [Vec.magnitude_axis]
    norm_num
  have hm75 : Vec.magnitude ⟨-75, 0⟩ = 75 := by
    rw [Vec.magnitude_axis]
    norm_num
  have hn50 : Vec.normalise ⟨-50, 0⟩ = (⟨-1, 0⟩ : Vec) := by
    unfold Vec.normalise
    rw [hm50, if_neg (by norm_num)]
    simp only [Vec.mk.injEq]
    norm_num
  have hn75 : Vec.normalise ⟨-75, 0⟩ = (⟨-1, 0⟩ : Vec) := by
    unfold Vec.normalise
    rw [hm75, if_neg (by norm_num)]
    simp only [Vec.mk.injEq]
    norm_num
  have hcrf50 : calculateRepulsionForce 50 100 2 = 1 / 2 := by
    unfold calculateRepulsionForce
    rw [if_pos (by norm_num)]
    norm_num
  have hcrf75 : calculateRepulsionForce 75 100 2 = 1 / 8 := by
    unfold calculateRepulsionForce
    rw [if_pos (by norm_num)]
    norm_num
  have hm1 : Vec.magnitude ⟨-1, 0⟩ = 1 := by
    rw [Vec.magnitude_axis]
    norm_num
  have hmq : Vec.magnitude ⟨-(1 / 4), 0⟩ = 1 / 4 := by
    rw [Vec.magnitude_axis]
    norm_num
  refine ⟨?_, ?_, ?_, ?_⟩
  · rw [getAntiSocialForce_single (koiSim 800 600 []) ⟨1, ⟨0, 0⟩, ⟨2, 0⟩, 0, false⟩
      ⟨2, ⟨50, 0⟩, ⟨0, 0⟩, 0, false⟩ 50 2 (by norm_num)
      (by
        show Vec.magnitude (Vec.sub ⟨0, 0⟩ ⟨50, 0⟩) < 50 * (koiSim 800 600 []).geoScale
        rw [hsub50, hm50]
        norm_num [koiSim])]
    show Vec.mult (Vec.normalise (Vec.sub ⟨0, 0⟩ ⟨50, 0⟩))
        (calculateRepulsionForce (Vec.magnitude (Vec.sub ⟨0, 0⟩ ⟨50, 0⟩))
          (50 * (koiSim 800 600 []).geoScale) 2 * min (max (Vec.magnitude ⟨2, 0⟩) 1) 2)
      = (⟨-1, 0⟩ : Vec)
    rw [hsub50, hm50, hn50, hv2]
    show Vec.mult ⟨-1, 0⟩ (calculateRepulsionForce 50 (50 * 2) 2 * min (max 2 1) 2) = _
    rw [show (50 * 2 : ℝ) = 100 by norm_num, hcrf50]
    simp only [Vec.mult, Vec.mk.injEq]
    norm_num
  · rw [getAntiSocialForce_single (koiSim 800 600 []) ⟨1, ⟨0, 0⟩, ⟨2, 0⟩, 0, false⟩
      ⟨2, ⟨75, 0⟩, ⟨0, 0⟩, 0, false⟩ 50 2 (by norm_num)
      (by
        show Vec.magnitude (Vec.sub ⟨0, 0⟩ ⟨75, 0⟩) < 50 * (koiSim 800 600 []).geoScale
        rw [hsub75, hm75]
        norm_num [koiSim])]
    show Vec.mult (Vec.normalise (Vec.sub ⟨0, 0⟩ ⟨75, 0⟩))
        (calculateRepulsionForce (Vec.magnitude (Vec.sub ⟨0, 0⟩ ⟨75, 0⟩))
          (50 * (koiSim 800 600 []).geoScale) 2 * min (max (Vec.magnitude ⟨2, 0⟩) 1) 2)
      = (⟨-(1 / 4), 0⟩ : Vec)
    rw [hsub75, hm75, hn75, hv2]
    show Vec.mult ⟨-1, 0⟩ (calculateRepulsionForce 75 (50 * 2) 2 * min (max 2 1) 2) = _
    rw [show (50 * 2 : ℝ) = 100 by norm_num, hcrf75]
    simp only [Vec.mult, Vec.mk.injEq]
    norm_num
  · rw [hm1]
    norm_num
  · intro k hk
    rw [hm1] at hk
    rw [hmq]
    have : k = 2500 := by
      field_simp at hk
      linarith
    rw [this]
    norm_num

/-! ## Claim C10 — static bodies and visibility vs. the gap probe -/

theorem nearestScan_filter_static (body : Body) (angle : ℝ) (l : List Body) :
    ∀ r : ℝ, nearestScan body angle (filterP (fun o => o.isStatic = false) l) r
      = nearestScan body angle l r := by
  induction l with
  | nil =>
    intro r
    rfl
  | cons o rest ih =>
    intro r
    by_cases hs : o.isStatic = false
    · have hfil : filterP (fun o => o.isStatic = false) (o :: rest)
          = o :: filterP (fun o => o.isStatic = false) rest := by
        simp only [filterP]
        rw [if_pos hs]
      rw [hfil]
      simp only [nearestScan]
      exact ih _
    · have hfil : filterP (fun o => o.isStatic = false) (o :: rest)
          = filterP (fun o => o.isStatic = false) rest := by
        simp only [filterP]
        rw [if_neg hs]
      rw [hfil, ih r]
      conv_rhs => simp only [nearestScan]
      rw [if_neg (fun h => hs h.2)]

/-- Claim C10: the visibility filter never tests `isStatic` — a body (static
or not) is in the visible set exactly when it is a world body other than the
observer that passes the region, view-angle and distance tests (and the
visible list is what repulsion, gap bearings and clearance checks consume) —
while the gap probe `getDistanceToNearestBody` ignores static bodies
entirely: deleting every static body from the world leaves its result
unchanged, so a dormant body never shortens the measured clearance
distance. -/
theorem staticVisibleButProbeSkipsStatic :
    (∀ (sim : Simulation) (body s : Body),
      s ∈ getVisibleBodies sim body ↔
        (s ∈ sim.worldBodies ∧
          (body.position.x - sim.viewDistance ≤ s.position.x ∧
            s.position.x ≤ body.position.x + sim.viewDistance ∧
            body.position.y - sim.viewDistance ≤ s.position.y ∧
            s.position.y ≤ body.position.y + sim.viewDistance) ∧
          (s.id ≠ body.id ∧
            Vec.angle ⟨Real.cos body.angle, Real.sin body.angle⟩
                (Vec.sub s.position body.position)
              ≤ sim.fieldOfViewDegrees * π / 180 / 2 ∧
            Vec.magnitude (Vec.sub s.position body.position) ≤ sim.viewDistance))) ∧
    (∀ (sim : Simulation) (body : Body) (angle searchRadius : ℝ),
      getDistanceToNearestBody
          { sim with worldBodies := filterP (fun o => o.isStatic = false) sim.worldBodies }
          body angle searchRadius
        = getDistanceToNearestBody sim body angle searchRadius) := by
  constructor
  · intro sim body s
    simp only [getVisibleBodies, mem_sortBy, mem_filterP]
    tauto
  · intro sim body angle searchRadius
    unfold getDistanceToNearestBody
    exact nearestScan_filter_static body angle sim.worldBodies searchRadius

/-! ## Small-step evaluation lemmas for the probe scan -/

theorem Vec.sub_zero_right (v : Vec) : Vec.sub v ⟨0, 0⟩ = v := by
  cases v
  simp [Vec.sub]

theorem nearestScan_nil (body : Body) (angle r : ℝ) :
    nearestScan body angle [] r = r := rfl

theorem nearestScan_cons_skip (body other : Body) (rest : List Body) (angle r : ℝ)
    (h : ¬(other.id ≠ body.id ∧ other.isStatic = false)) :
    nearestScan body angle (other :: rest) r = nearestScan body angle rest r := by
  simp only [nearestScan]
  rw [if_neg h]

theorem nearestScan_cons_far (body other : Body) (rest : List Body) (angle r : ℝ)
    (h : other.id ≠ body.id ∧ other.isStatic = false)
    (hfar : ¬ Vec.magnitude (Vec.sub other.position body.position) < r) :
    nearestScan body angle (other :: rest) r = nearestScan body angle rest r := by
  simp only [nearestScan]
  rw [if_pos h, if_neg hfar]

theorem nearestScan_cons_outside_cone (body other : Body) (rest : List Body) (angle r : ℝ)
    (h : other.id ≠ body.id ∧ other.isStatic = false)
    (hnear : Vec.magnitude (Vec.sub other.position body.position) < r)
    (hcone : ¬ |angle - atan2 (Vec.sub other.position body.position).y
        (Vec.sub other.position body.position).x| ≤ 10 * π / 180) :
    nearestScan body angle (other :: rest) r = nearestScan body angle rest r := by
  simp only [nearestScan]
  rw [if_pos h, if_pos hnear, if_neg hcone]

theorem nearestScan_cons_hit (body other : Body) (rest : List Body) (angle r : ℝ)
    (h : other.id ≠ body.id ∧ other.isStatic = false)
    (hnear : Vec.magnitude (Vec.sub other.position body.position) < r)
    (hcone : |angle - atan2 (Vec.sub other.position body.position).y
        (Vec.sub other.position body.position).x| ≤ 10 * π / 180) :
    nearestScan body angle (other :: rest) r
      = nearestScan body angle rest (Vec.magnitude (Vec.sub other.position body.position)) := by
  simp only [nearestScan]
  rw [if_pos h, if_pos hnear, if_pos hcone]

theorem Vec.magnitude_polar (r θ : ℝ) (hr : 0 ≤ r) :
    Vec.magnitude ⟨r * Real.cos θ, r * Real.sin θ⟩ = r := by
  unfold Vec.magnitude
  rw [show (r * Real.cos θ) ^ 2 + (r * Real.sin θ) ^ 2
      = r ^ 2 * (Real.sin θ ^ 2 + Real.cos θ ^ 2) by ring,
    Real.sin_sq_add_cos_sq, mul_one, Real.sqrt_sq hr]

/-! ## Claim C6 — angle wraparound before the probe's cone comparison -/

/-- Claim C6 (the code violates it): the probe's 10-degree cone test compares
the *raw* difference `|angle - angleToOther|` without wrapping. At the probe
bearing `21π/20` — exactly the midpoint bearing the gap scan produces for the
wraparound gap between neighbors at bearings `19π/20` and `-(17π)/20`
(i.e. `-(17π)/20 + 2π = 23π/20`) — a non-static body 10 units away at bearing
`-(19π)/20`, angularly identical to `21π/20` modulo `2π` (their difference is
exactly `2π`), is missed: the raw difference `2π` fails the 10-degree test and
the probe returns the full search radius 40 instead of 10. -/
theorem probeConeNotWrappedAtBoundary :
    getDistanceToNearestBody
        (koiSim 800 600
          [⟨1, ⟨0, 0⟩, ⟨0, 0⟩, 0, false⟩,
            ⟨2, ⟨10 * Real.cos (-(19 * π) / 20), 10 * Real.sin (-(19 * π) / 20)⟩,
              ⟨0, 0⟩, 0, false⟩])
        ⟨1, ⟨0, 0⟩, ⟨0, 0⟩, 0, false⟩ (21 * π / 20) 40 = 40 ∧
    Vec.magnitude
        (Vec.sub ⟨10 * Real.cos (-(19 * π) / 20), 10 * Real.sin (-(19 * π) / 20)⟩ ⟨0, 0⟩)
      = 10 ∧
    21 * π / 20
        - atan2
            (Vec.sub ⟨10 * Real.cos (-(19 * π) / 20), 10 * Real.sin (-(19 * π) / 20)⟩
              ⟨0, 0⟩).y
            (Vec.sub ⟨10 * Real.cos (-(19 * π) / 20), 10 * Real.sin (-(19 * π) / 20)⟩
              ⟨0, 0⟩).x
      = 2 * π ∧
    (10 : ℝ) < 40 := by
  have hsub : Vec.sub
      (⟨10 * Real.cos (-(19 * π) / 20), 10 * Real.sin (-(19 * π) / 20)⟩ : Vec) ⟨0, 0⟩
      = (⟨10 * Real.cos (-(19 * π) / 20), 10 * Real.sin (-(19 * π) / 20)⟩ : Vec) :=
    Vec.sub_zero_right _
  have hmag : Vec.magnitude
      (⟨10 * Real.cos (-(19 * π) / 20), 10 * Real.sin (-(19 * π) / 20)⟩ : Vec) = 10 :=
    Vec.magnitude_polar 10 (-(19 * π) / 20) (by norm_num)
  have hatan : atan2 (10 * Real.sin (-(19 * π) / 20)) (10 * Real.cos (-(19 * π) / 20))
      = -(19 * π) / 20 := by
    apply atan2_polar 10 (-(19 * π) / 20) (by norm_num)
    constructor
    · linarith [Real.pi_pos]
    · linarith [Real.pi_pos]
  refine ⟨?_, ?_, ?_, by norm_num⟩
  · show nearestScan ⟨1, ⟨0, 0⟩, ⟨0, 0⟩, 0, false⟩ (21 * π / 20)
      [⟨1, ⟨0, 0⟩, ⟨0, 0⟩, 0, false⟩,
        ⟨2, ⟨10 * Real.cos (-(19 * π) / 20), 10 * Real.sin (-(19 * π) / 20)⟩,
          ⟨0, 0⟩, 0, false⟩] 40 = 40
    rw [nearestScan_cons_skip _ _ _ _ _ (by simp),
      nearestScan_cons_outside_cone _ _ _ _ _ ⟨by norm_num, rfl⟩
        (by
          show Vec.magnitude (Vec.sub ⟨10 * Real.cos (-(19 * π) / 20),
            10 * Real.sin (-(19 * π) / 20)⟩ ⟨0, 0⟩) < 40
          rw [hsub, hmag]
          norm_num)
        (by
          show ¬ |21 * π / 20 - atan2 (Vec.sub ⟨10 * Real.cos (-(19 * π) / 20),
              10 * Real.sin (-(19 * π) / 20)⟩ ⟨0, 0⟩).y
              (Vec.sub ⟨10 * Real.cos (-(19 * π) / 20),
              10 * Real.sin (-(19 * π) / 20)⟩ ⟨0, 0⟩).x| ≤ 10 * π / 180
          rw [hsub]
          show ¬ |21 * π / 20 - atan2 (10 * Real.sin (-(19 * π) / 20))
              (10 * Real.cos (-(19 * π) / 20))| ≤ 10 * π / 180
          rw [hatan, show 21 * π / 20 - -(19 * π) / 20 = 2 * π by ring,
            abs_of_pos (by positivity)]
          intro hle
          nlinarith [Real.pi_pos]),
      nearestScan_nil]
  · rw [hsub, hmag]
  · rw [hsub]
    show 21 * π / 20 - atan2 (10 * Real.sin (-(19 * π) / 20))
        (10 * Real.cos (-(19 * π) / 20)) = 2 * π
    rw [hatan]
    ring

/-! ## Claim C2 — the field-of-view membership test -/

/-- Claim C2 (the code violates it): the visibility filter computes
`Vector.angle(bodyDirection, toOther)`, which in matter-js is the bearing of
the segment between the two *points* `bodyDirection` and `toOther`, not the
angle between the heading and the direction to the candidate; any candidate
for which that bearing is negative passes the test trivially. Concretely: for
an observer at the origin with heading 0 (FOV 270°, half-angle 135°), the
candidate at `(-10, -1)` — almost directly *behind*, at true angular offset
`arccos(-10/√101) > 135°` from the heading — is nevertheless in the visible
set, refuting the claimed "iff". -/
theorem visibleSetAdmitsBodyBehind :
    (⟨2, ⟨-10, -1⟩, ⟨0, 0⟩, 0, false⟩ : Body) ∈
      getVisibleBodies
        (koiSim 800 600
          [⟨1, ⟨0, 0⟩, ⟨0, 0⟩, 0, false⟩, ⟨2, ⟨-10, -1⟩, ⟨0, 0⟩, 0, false⟩])
        ⟨1, ⟨0, 0⟩, ⟨0, 0⟩, 0, false⟩ ∧
    specAngleBetween ⟨Real.cos (0 : ℝ), Real.sin (0 : ℝ)⟩ (Vec.sub ⟨-10, -1⟩ ⟨0, 0⟩)
      > 270 * π / 180 / 2 := by
  have hsub : Vec.sub (⟨-10, -1⟩ : Vec) ⟨0, 0⟩ = (⟨-10, -1⟩ : Vec) := Vec.sub_zero_right _
  have hs101 : (0 : ℝ) < Real.sqrt 101 := Real.sqrt_pos.mpr (by norm_num)
  have hmagc : Vec.magnitude ⟨-10, -1⟩ = Real.sqrt 101 := by
    unfold Vec.magnitude
    norm_num
  constructor
  · simp only [getVisibleBodies, mem_sortBy, mem_filterP, koiSim]
    refine ⟨⟨?_, ?_⟩, ?_, ?_, ?_⟩
    · exact List.mem_cons_of_mem _ (List.mem_cons_self _ _)
    · refine ⟨by norm_num, by norm_num, by norm_num, by norm_num⟩
    · norm_num
    · show Vec.angle ⟨Real.cos (0 : ℝ), Real.sin (0 : ℝ)⟩ (Vec.sub ⟨-10, -1⟩ ⟨0, 0⟩)
        ≤ 270 * π / 180 / 2
      rw [hsub]
      unfold Vec.angle
      have hneg : atan2 ((-1 : ℝ) - Real.sin 0) ((-10 : ℝ) - Real.cos 0) < 0 := by
        apply atan2_neg_of_neg
        rw [Real.sin_zero]
        norm_num
      have hpos : (0 : ℝ) < 270 * π / 180 / 2 := by positivity
      show atan2 ((-1 : ℝ) - Real.sin 0) ((-10 : ℝ) - Real.cos 0) ≤ 270 * π / 180 / 2
      linarith
    · show Vec.magnitude (Vec.sub ⟨-10, -1⟩ ⟨0, 0⟩) ≤ 200 * 2
      rw [hsub, hmagc]
      have h400 : Real.sqrt 160000 = 400 := by
        rw [show (160000 : ℝ) = 400 ^ 2 by norm_num, Real.sqrt_sq (by norm_num)]
      have := Real.sqrt_le_sqrt (show (101 : ℝ) ≤ 160000 by norm_num)
      rw [h400] at this
      linarith
  · rw [hsub]
    unfold specAngleBetween
    rw [Real.cos_zero, Real.sin_zero]
    have hmag1 : Vec.magnitude ⟨1, 0⟩ = 1 := by
      rw [Vec.magnitude_axis]
      norm_num
    have hdot : Vec.dot ⟨1, 0⟩ ⟨-10, -1⟩ = -10 := by
      unfold Vec.dot
      norm_num
    rw [hmag1, hdot, hmagc, one_mul]
    have hcmem : (-10 / Real.sqrt 101 : ℝ) ∈ Set.Icc (-1 : ℝ) 1 := by
      constructor
      · rw [neg_le, ← neg_div]
        rw [div_le_one hs101]
        have : (10 : ℝ) ≤ Real.sqrt 101 := by
          rw [show (10 : ℝ) = Real.sqrt 100 by
            rw [show (100 : ℝ) = 10 ^ 2 by norm_num, Real.sqrt_sq (by norm_num)]]
          exact Real.sqrt_le_sqrt (by norm_num)
        linarith
      · have : (-10 / Real.sqrt 101 : ℝ) < 0 := by
          apply div_neg_of_neg_of_pos (by norm_num) hs101
        linarith
    have hsmem : (-(Real.sqrt 2 / 2) : ℝ) ∈ Set.Icc (-1 : ℝ) 1 := by
      have h2 : Real.sqrt 2 ≤ 2 := by
        nlinarith [Real.sq_sqrt (show (0:ℝ) ≤ 2 by norm_num), Real.sqrt_nonneg 2]
      have h0 : (0 : ℝ) ≤ Real.sqrt 2 := Real.sqrt_nonneg 2
      constructor <;> [linarith; linarith]
    have hlt : (-10 / Real.sqrt 101 : ℝ) < -(Real.sqrt 2 / 2) := by
      have hkey : Real.sqrt 2 * Real.sqrt 101 < 20 := by
        nlinarith [Real.sq_sqrt (show (0:ℝ) ≤ 2 by norm_num),
          Real.sq_sqrt (show (0:ℝ) ≤ 101 by norm_num),
          Real.sqrt_nonneg 2, Real.sqrt_nonneg 101,
          mul_pos (Real.sqrt_pos.mpr (show (0:ℝ) < 2 by norm_num)) hs101]
      rw [neg_div, neg_lt_neg_iff, div_lt_div_iff₀ (by norm_num) hs101]
      nlinarith [Real.sqrt_nonneg 2, hs101]
    have hanti := Real.strictAntiOn_arccos hcmem hsmem hlt
    have harc : Real.arccos (-(Real.sqrt 2 / 2)) = 3 * π / 4 := by
      rw [Real.arccos_neg, show Real.sqrt 2 / 2 = Real.cos (π / 4) from
        (Real.cos_pi_div_four).symm,
        Real.arccos_cos (by positivity) (by linarith [Real.pi_pos])]
      ring
    rw [harc] at hanti
    have heq : 270 * π / 180 / 2 = 3 * π / 4 := by ring
    linarith

/-! ## Small-step evaluation lemmas for sorting and the gap scan -/

theorem insertSorted_nil {α : Type} (le : α → α → Prop) (a : α) :
    insertSorted le a [] = [a] := rfl

theorem insertSorted_cons_le {α : Type} (le : α → α → Prop) (a b : α) (l : List α)
    (h : le a b) : insertSorted le a (b :: l) = a :: b :: l := by
  simp only [insertSorted]
  rw [if_pos h]

theorem insertSorted_cons_gt {α : Type} (le : α → α → Prop) (a b : α) (l : List α)
    (h : ¬ le a b) : insertSorted le a (b :: l) = b :: insertSorted le a l := by
  simp only [insertSorted]
  rw [if_neg h]

theorem sortBy_nil {α : Type} (le : α → α → Prop) : sortBy le [] = [] := rfl

theorem sortBy_cons {α : Type} (le : α → α → Prop) (a : α) (l : List α) :
    sortBy le (a :: l) = insertSorted le a (sortBy le l) := rfl

theorem gapScan_nil (sim : Simulation) (body : Body) (nb : List Body)
    (sr mn mx : ℝ) (acc : ℝ × ℝ × ℝ) :
    gapScan sim body nb sr mn mx [] acc = acc := rfl

theorem gapScan_single (sim : Simulation) (body : Body) (nb : List Body)
    (sr mn mx a : ℝ) (acc : ℝ × ℝ × ℝ) :
    gapScan sim body nb sr mn mx [a] acc = acc := rfl

theorem gapScan_pair_reject (sim : Simulation) (body : Body) (nb : List Body)
    (sr mn mx a b : ℝ) (rest : List ℝ) (acc : ℝ × ℝ × ℝ)
    (h : ¬(b - a > acc.1 ∧ b - a > mn ∧ b - a < mx)) :
    gapScan sim body nb sr mn mx (a :: b :: rest) acc
      = gapScan sim body nb sr mn mx (b :: rest) acc := by
  simp only [gapScan]
  rw [if_neg h]

theorem gapScan_pair_clear (sim : Simulation) (body : Body) (nb : List Body)
    (sr mn mx a b : ℝ) (rest : List ℝ) (acc : ℝ × ℝ × ℝ)
    (h : b - a > acc.1 ∧ b - a > mn ∧ b - a < mx)
    (hclear : isCircleClear body (a + (b - a) / 2)
      (getDistanceToNearestBody sim body (a + (b - a) / 2) sr / 2) nb) :
    gapScan sim body nb sr mn mx (a :: b :: rest) acc
      = gapScan sim body nb sr mn mx (b :: rest)
          (b - a, a + (b - a) / 2,
            getDistanceToNearestBody sim body (a + (b - a) / 2) sr / 2) := by
  simp only [gapScan]
  rw [if_pos h, if_pos hclear]

theorem gapScan_pair_blocked (sim : Simulation) (body : Body) (nb : List Body)
    (sr mn mx a b : ℝ) (rest : List ℝ) (acc : ℝ × ℝ × ℝ)
    (h : b - a > acc.1 ∧ b - a > mn ∧ b - a < mx)
    (hblocked : ¬ isCircleClear body (a + (b - a) / 2)
      (getDistanceToNearestBody sim body (a + (b - a) / 2) sr / 2) nb) :
    gapScan sim body nb sr mn mx (a :: b :: rest) acc
      = gapScan sim body nb sr mn mx (b :: rest) acc := by
  simp only [gapScan]
  rw [if_pos h, if_neg hblocked]

theorem getSocialForce_unfold (sim : Simulation) (body : Body) (nb : List Body)
    (radius : ℝ) (hne : ¬ nb = []) :
    getSocialForce sim body nb radius =
      (let angles := sortBy (fun a b => a ≤ b) (nb.map (fun other =>
        atan2 (Vec.sub other.position body.position).y
          (Vec.sub other.position body.position).x));
      let angles2 := angles ++ [angles.headI + 2 * π];
      let result := gapScan sim body nb (radius * sim.geoScale) (10 * π / 180)
        (90 * π / 180) angles2 (0, 0, 0);
      if result.1 > 10 * π / 180 ∧ result.2.2 > 0 then steerTowards body result.2.1
      else ⟨0, 0⟩) := by
  simp only [getSocialForce]
  rw [if_neg hne]

/-- Convenience form of `atan2_polar` for concrete components. -/
theorem atan2_eval (y x r θ : ℝ) (hy : y = r * Real.sin θ) (hx : x = r * Real.cos θ)
    (hr : 0 < r) (hθ : θ ∈ Set.Ioc (-π) π) : atan2 y x = θ := by
  rw [hy, hx]
  exact atan2_polar r θ hr hθ

theorem Vec.magnitude_unit (θ : ℝ) : Vec.magnitude ⟨Real.cos θ, Real.sin θ⟩ = 1 := by
  have h : (⟨Real.cos θ, Real.sin θ⟩ : Vec) = ⟨1 * Real.cos θ, 1 * Real.sin θ⟩ := by
    norm_num
  rw [h, Vec.magnitude_polar 1 θ (by norm_num)]

/-! ## Claim C4 — a single neighbor dead ahead -/

theorem socialForce_single_eval :
    getSocialForce
        (koiSim 800 600
          [⟨1, ⟨0, 0⟩, ⟨0, 0⟩, 0, false⟩, ⟨2, ⟨100, 0⟩, ⟨0, 0⟩, 0, false⟩])
        ⟨1, ⟨0, 0⟩, ⟨0, 0⟩, 0, false⟩ [⟨2, ⟨100, 0⟩, ⟨0, 0⟩, 0, false⟩] 20 = ⟨0, 0⟩ := by
  rw [getSocialForce_unfold _ _ _ _ (by simp)]
  simp only [List.map, Vec.sub, sub_zero]
  rw [show atan2 (0 : ℝ) (100 : ℝ) = 0 from
    atan2_eval _ _ 100 0 (by simp) (by simp) (by norm_num)
      ⟨by linarith [Real.pi_pos], Real.pi_pos.le⟩]
  rw [sortBy_cons, sortBy_nil, insertSorted_nil]
  simp only [List.headI, List.cons_append, List.nil_append]
  rw [gapScan_pair_reject _ _ _ _ _ _ _ _ _ _
    (by
      intro hcond
      have h3 := hcond.2.2
      linarith [Real.pi_pos]),
    gapScan_single]
  rw [if_neg (by
    intro hcond
    have h1 := hcond.1
    simp only at h1
    linarith [Real.pi_pos])]

/-- Claim C4 as amended: with a single visible neighbor directly ahead at
bearing 0°, the sorted bearing list plus the wraparound entry still produces
exactly one gap — the full-circle `2π` gap — but the code also requires a
candidate gap to be *strictly smaller than 90°* (`maxGap`), so the wraparound
gap is rejected and `getSocialForce` returns the zero no-gap sentinel, not a
unit vector near bearing 180°. -/
theorem gapSingleNeighborAmended :
    getSocialForce
        (koiSim 800 600
          [⟨1, ⟨0, 0⟩, ⟨0, 0⟩, 0, false⟩, ⟨2, ⟨100, 0⟩, ⟨0, 0⟩, 0, false⟩])
        ⟨1, ⟨0, 0⟩, ⟨0, 0⟩, 0, false⟩ [⟨2, ⟨100, 0⟩, ⟨0, 0⟩, 0, false⟩] 20 = ⟨0, 0⟩ :=
  socialForce_single_eval

/-- Claim C4 counterexample: in the claimed scenario (observer at the origin,
one visible neighbor at `(100, 0)`, i.e. bearing 0°), the result of gap
steering has magnitude 0 — it is the zero vector, not a unit vector near
bearing 180° (any such vector, e.g. at bearing exactly `π`, has
magnitude 1). -/
theorem gapSingleNeighborCounterexample :
    Vec.magnitude
        (getSocialForce
          (koiSim 800 600
            [⟨1, ⟨0, 0⟩, ⟨0, 0⟩, 0, false⟩, ⟨2, ⟨100, 0⟩, ⟨0, 0⟩, 0, false⟩])
          ⟨1, ⟨0, 0⟩, ⟨0, 0⟩, 0, false⟩ [⟨2, ⟨100, 0⟩, ⟨0, 0⟩, 0, false⟩] 20) = 0 ∧
    Vec.magnitude ⟨Real.cos π, Real.sin π⟩ = 1 := by
  constructor
  · rw [socialForce_single_eval]
    exact (Vec.magnitude_eq_zero_iff _).mpr rfl
  · exact Vec.magnitude_unit π

/-! ## Claim C1 — three neighbors at bearings 0°, 90°, 200° -/

theorem socialForce_threeNeighbors_eval :
    getSocialForce
        (koiSim 800 600
          [⟨1, ⟨0, 0⟩, ⟨0, 0⟩, 0, false⟩, ⟨2, ⟨100, 0⟩, ⟨0, 0⟩, 0, false⟩,
            ⟨3, ⟨0, 100⟩, ⟨0, 0⟩, 0, false⟩,
            ⟨4, ⟨100 * Real.cos (-(8 * π) / 9), 100 * Real.sin (-(8 * π) / 9)⟩,
              ⟨0, 0⟩, 0, false⟩])
        ⟨1, ⟨0, 0⟩, ⟨0, 0⟩, 0, false⟩
        [⟨2, ⟨100, 0⟩, ⟨0, 0⟩, 0, false⟩, ⟨3, ⟨0, 100⟩, ⟨0, 0⟩, 0, false⟩,
          ⟨4, ⟨100 * Real.cos (-(8 * π) / 9), 100 * Real.sin (-(8 * π) / 9)⟩,
            ⟨0, 0⟩, 0, false⟩] 20 = ⟨0, 0⟩ := by
  rw [getSocialForce_unfold _ _ _ _ (by simp)]
  simp only [List.map, Vec.sub, sub_zero]
  rw [show atan2 (0 : ℝ) (100 : ℝ) = 0 from
      atan2_eval _ _ 100 0 (by simp) (by simp) (by norm_num)
        ⟨by linarith [Real.pi_pos], Real.pi_pos.le⟩,
    show atan2 (100 : ℝ) (0 : ℝ) = π / 2 from
      atan2_eval _ _ 100 (π / 2) (by simp) (by simp) (by norm_num)
        ⟨by linarith [Real.pi_pos], by linarith [Real.pi_pos]⟩,
    atan2_polar 100 (-(8 * π) / 9) (by norm_num)
      ⟨by linarith [Real.pi_pos], by linarith [Real.pi_pos]⟩]
  rw [sortBy_cons, sortBy_cons, sortBy_cons, sortBy_nil, insertSorted_nil,
    insertSorted_cons_gt _ _ _ _
      (by
        show ¬ ((π / 2 : ℝ) ≤ -(8 * π) / 9)
        intro hc
        linarith [Real.pi_pos]),
    insertSorted_nil,
    insertSorted_cons_gt _ _ _ _
      (by
        show ¬ ((0 : ℝ) ≤ -(8 * π) / 9)
        intro hc
        linarith [Real.pi_pos]),
    insertSorted_cons_le _ _ _ _
      (by
        show (0 : ℝ) ≤ π / 2
        linarith [Real.pi_pos])]
  simp only [List.headI, List.cons_append, List.nil_append]
  rw [gapScan_pair_reject _ _ _ _ _ _ _ _ _ _
      (by
        intro hcond
        have h3 := hcond.2.2
        linarith [Real.pi_pos]),
    gapScan_pair_reject _ _ _ _ _ _ _ _ _ _
      (by
        intro hcond
        have h3 := hcond.2.2
        linarith [Real.pi_pos]),
    gapScan_pair_reject _ _ _ _ _ _ _ _ _ _
      (by
        intro hcond
        have h3 := hcond.2.2
        linarith [Real.pi_pos]),
    gapScan_single]
  rw [if_neg (by
    intro hcond
    have h1 := hcond.1
    simp only at h1
    linarith [Real.pi_pos])]

/-- Claim C1 as amended: in the claimed scenario — observer at the origin,
visible neighbors at bearings 0°, 90° and 200° (the point
`100·(cos(-8π/9), sin(-8π/9))`), minimum gap 10° — the code also imposes a
*maximum* gap of 90° (`maxGap`), which the spec scenario ignores: the three
candidate gaps measure 160°, 90° (not strictly below the bound) and 110°, so
every gap is rejected before any clearance probe and `getSocialForce` returns
the zero no-gap sentinel rather than a unit vector at bearing 145°. -/
theorem gapScenario145Amended :
    getSocialForce
        (koiSim 800 600
          [⟨1, ⟨0, 0⟩, ⟨0, 0⟩, 0, false⟩, ⟨2, ⟨100, 0⟩, ⟨0, 0⟩, 0, false⟩,
            ⟨3, ⟨0, 100⟩, ⟨0, 0⟩, 0, false⟩,
            ⟨4, ⟨100 * Real.cos (-(8 * π) / 9), 100 * Real.sin (-(8 * π) / 9)⟩,
              ⟨0, 0⟩, 0, false⟩])
        ⟨1, ⟨0, 0⟩, ⟨0, 0⟩, 0, false⟩
        [⟨2, ⟨100, 0⟩, ⟨0, 0⟩, 0, false⟩, ⟨3, ⟨0, 100⟩, ⟨0, 0⟩, 0, false⟩,
          ⟨4, ⟨100 * Real.cos (-(8 * π) / 9), 100 * Real.sin (-(8 * π) / 9)⟩,
            ⟨0, 0⟩, 0, false⟩] 20 = ⟨0, 0⟩ :=
  socialForce_threeNeighbors_eval

/-- Claim C1 counterexample: in the claimed three-neighbor scenario the gap
steering result has magnitude 0 — the zero vector — whereas the claimed
output, a unit vector at bearing 145° (`29π/36`), has magnitude 1. -/
theorem gapScenario145Counterexample :
    Vec.magnitude
        (getSocialForce
          (koiSim 800 600
            [⟨1, ⟨0, 0⟩, ⟨0, 0⟩, 0, false⟩, ⟨2, ⟨100, 0⟩, ⟨0, 0⟩, 0, false⟩,
              ⟨3, ⟨0, 100⟩, ⟨0, 0⟩, 0, false⟩,
              ⟨4, ⟨100 * Real.cos (-(8 * π) / 9), 100 * Real.sin (-(8 * π) / 9)⟩,
                ⟨0, 0⟩, 0, false⟩])
          ⟨1, ⟨0, 0⟩, ⟨0, 0⟩, 0, false⟩
          [⟨2, ⟨100, 0⟩, ⟨0, 0⟩, 0, false⟩, ⟨3, ⟨0, 100⟩, ⟨0, 0⟩, 0, false⟩,
            ⟨4, ⟨100 * Real.cos (-(8 * π) / 9), 100 * Real.sin (-(8 * π) / 9)⟩,
              ⟨0, 0⟩, 0, false⟩] 20) = 0 ∧
    Vec.magnitude ⟨Real.cos (29 * π / 36), Real.sin (29 * π / 36)⟩ = 1 := by
  constructor
  · rw [socialForce_threeNeighbors_eval]
    exact (Vec.magnitude_eq_zero_iff _).mpr rfl
  · exact Vec.magnitude_unit (29 * π / 36)

/-! ## Claim C5 — soundness of the clearance check -/

theorem gapScan_invariant (sim : Simulation) (body : Body) (nb : List Body)
    (sr mn mx : ℝ) (l : List ℝ) :
    ∀ acc : ℝ × ℝ × ℝ,
      (0 < acc.2.2 →
        acc.2.2 = getDistanceToNearestBody sim body acc.2.1 sr / 2 ∧
        isCircleClear body acc.2.1 acc.2.2 nb) →
      0 < (gapScan sim body nb sr mn mx l acc).2.2 →
        (gapScan sim body nb sr mn mx l acc).2.2
            = getDistanceToNearestBody sim body
                (gapScan sim body nb sr mn mx l acc).2.1 sr / 2 ∧
        isCircleClear body (gapScan sim body nb sr mn mx l acc).2.1
          (gapScan sim body nb sr mn mx l acc).2.2 nb := by
  induction l with
  | nil =>
    intro acc hacc
    rw [gapScan_nil]
    exact hacc
  | cons a l' ih =>
    cases l' with
    | nil =>
      intro acc hacc
      rw [gapScan_single]
      exact hacc
    | cons b rest =>
      intro acc hacc
      simp only [gapScan]
      split_ifs with hcond hclear
      · apply ih
        intro _
        exact ⟨rfl, hclear⟩
      · exact ih acc hacc
      · exact ih acc hacc

/-- Claim C5: whenever `getSocialForce` returns a steering direction (anything
other than the zero no-gap sentinel), the returned vector is `steerTowards`
some midpoint bearing `mid` whose clearance radius — half the probed distance
`getDistanceToNearestBody` along `mid` — is positive, and the clearance circle
centred `clearance_radius` along `mid` from the agent contains no visible
neighbor: every visible neighbor is at distance at least the clearance radius
from the circle centre. -/
theorem gapClearanceSound (sim : Simulation) (body : Body) (nb : List Body) (radius : ℝ)
    (h : getSocialForce sim body nb radius ≠ ⟨0, 0⟩) :
    ∃ mid : ℝ,
      getSocialForce sim body nb radius = steerTowards body mid ∧
      0 < getDistanceToNearestBody sim body mid (radius * sim.geoScale) / 2 ∧
      ∀ other ∈ nb,
        getDistanceToNearestBody sim body mid (radius * sim.geoScale) / 2 ≤
          Vec.magnitude (Vec.sub
            (Vec.add body.position (Vec.mult ⟨Real.cos mid, Real.sin mid⟩
              (getDistanceToNearestBody sim body mid (radius * sim.geoScale) / 2)))
            other.position) := by
  by_cases hne : nb = []
  · exfalso
    apply h
    rw [hne]
    simp [getSocialForce]
  · simp only [getSocialForce] at h ⊢
    rw [if_neg hne] at h ⊢
    split_ifs at h ⊢ with hc
    · obtain ⟨hr_eq, hclear⟩ := gapScan_invariant sim body nb (radius * sim.geoScale)
        (10 * π / 180) (90 * π / 180) _ (0, 0, 0)
        (fun h0 => absurd h0 (by norm_num)) hc.2
      refine ⟨_, rfl, ?_, ?_⟩
      · rw [← hr_eq]
        exact hc.2
      · rw [hr_eq] at hclear
        simp only [isCircleClear] at hclear
        push_neg at hclear
        exact hclear
    · exact absurd rfl h

theorem steerTowards_magnitude (body : Body) (θ : ℝ) :
    Vec.magnitude (steerTowards body θ) = 1 := by
  simp only [steerTowards]
  have hd : Vec.sub ⟨body.position.x + Real.cos θ * 100, body.position.y + Real.sin θ * 100⟩
      body.position = ⟨100 * Real.cos θ, 100 * Real.sin θ⟩ := by
    simp only [Vec.sub, Vec.mk.injEq]
    constructor <;> ring
  rw [hd]
  apply Vec.magnitude_normalise
  intro hz
  have hm := congrArg Vec.magnitude hz
  rw [Vec.magnitude_polar 100 θ (by norm_num),
    (Vec.magnitude_eq_zero_iff _).mpr rfl] at hm
  norm_num at hm

theorem gapWitness_probe_eval :
    getDistanceToNearestBody gapWitnessSim observerBody (0 + (π / 3 - 0) / 2) 40 = 40 := by
  simp only [getDistanceToNearestBody, gapWitnessSim, koiSim]
  rw [nearestScan_cons_skip _ _ _ _ _ (by simp [observerBody]),
    nearestScan_cons_far _ _ _ _ _ ⟨by simp [neighborEast, observerBody], rfl⟩
      (by
        show ¬ Vec.magnitude (Vec.sub neighborEast.position observerBody.position) < 40
        simp only [neighborEast, observerBody]
        rw [Vec.sub_zero_right, Vec.magnitude_axis]
        norm_num),
    nearestScan_cons_far _ _ _ _ _ ⟨by simp [neighborNE, observerBody], rfl⟩
      (by
        show ¬ Vec.magnitude (Vec.sub neighborNE.position observerBody.position) < 40
        simp only [neighborNE, observerBody]
        rw [Vec.sub_zero_right]
        have hm : Vec.magnitude ⟨50, 50 * Real.sqrt 3⟩ = 100 := by
          unfold Vec.magnitude
          rw [show (50 : ℝ) ^ 2 + (50 * Real.sqrt 3) ^ 2 = 10000 from by
            nlinarith [Real.sq_sqrt (show (0:ℝ) ≤ 3 by norm_num)]]
          rw [show (10000 : ℝ) = 100 ^ 2 by norm_num, Real.sqrt_sq (by norm_num)]
        rw [hm]
        norm_num),
    nearestScan_nil]

theorem gapWitness_circle_clear :
    isCircleClear observerBody (0 + (π / 3 - 0) / 2)
      (getDistanceToNearestBody gapWitnessSim observerBody (0 + (π / 3 - 0) / 2) 40 / 2)
      [neighborEast, neighborNE] := by
  rw [gapWitness_probe_eval]
  simp only [isCircleClear]
  rintro ⟨other, hmem, hlt⟩
  rw [show (0 + (π / 3 - 0) / 2 : ℝ) = π / 6 from by ring, Real.cos_pi_div_six,
    Real.sin_pi_div_six, show (40 : ℝ) / 2 = 20 from by norm_num] at hlt
  simp only [List.mem_cons, List.not_mem_nil, or_false] at hmem
  have hs3 := Real.sq_sqrt (show (0:ℝ) ≤ 3 by norm_num)
  have hs3n := Real.sqrt_nonneg 3
  rcases hmem with rfl | rfl
  · simp only [neighborEast, observerBody, Vec.add, Vec.mult, Vec.sub, Vec.magnitude] at hlt
    rw [Real.sqrt_lt' (by norm_num)] at hlt
    nlinarith [hs3, hs3n]
  · simp only [neighborNE, observerBody, Vec.add, Vec.mult, Vec.sub, Vec.magnitude] at hlt
    rw [Real.sqrt_lt' (by norm_num)] at hlt
    nlinarith [hs3, hs3n]

theorem socialForce_twoNeighbors_eval :
    getSocialForce gapWitnessSim observerBody [neighborEast, neighborNE] 20
      = steerTowards observerBody (0 + (π / 3 - 0) / 2) := by
  rw [getSocialForce_unfold _ _ _ _ (by simp)]
  rw [show (20 : ℝ) * gapWitnessSim.geoScale = 40 from by
    norm_num [gapWitnessSim, koiSim]]
  simp only [List.map, neighborEast, neighborNE, observerBody, Vec.sub, sub_zero]
  rw [show atan2 (0 : ℝ) (100 : ℝ) = 0 from
      atan2_eval _ _ 100 0 (by simp) (by simp) (by norm_num)
        ⟨by linarith [Real.pi_pos], Real.pi_pos.le⟩,
    show atan2 (50 * Real.sqrt 3 : ℝ) (50 : ℝ) = π / 3 from
      atan2_eval _ _ 100 (π / 3)
        (by
          rw [Real.sin_pi_div_three]
          ring)
        (by
          rw [Real.cos_pi_div_three]
          norm_num)
        (by norm_num) ⟨by linarith [Real.pi_pos], by linarith [Real.pi_pos]⟩]
  rw [sortBy_cons, sortBy_cons, sortBy_nil, insertSorted_nil,
    insertSorted_cons_le _ _ _ _ (show (0 : ℝ) ≤ π / 3 from by linarith [Real.pi_pos])]
  simp only [List.headI, List.cons_append, List.nil_append]
  rw [gapScan_pair_clear _ _ _ _ _ _ _ _ _ _
      ⟨by
        show π / 3 - 0 > (0 : ℝ)
        linarith [Real.pi_pos],
      by
        show π / 3 - 0 > 10 * π / 180
        linarith [Real.pi_pos],
      by
        show π / 3 - 0 < 90 * π / 180
        linarith [Real.pi_pos]⟩
      (by
        have h := gapWitness_circle_clear
        simp only [gapWitnessSim, koiSim, observerBody, neighborEast, neighborNE] at h ⊢
        exact h),
    gapScan_pair_reject _ _ _ _ _ _ _ _ _ _
      (by
        intro hcond
        have h3 := hcond.2.2
        linarith [Real.pi_pos]),
    gapScan_single]
  have hD := gapWitness_probe_eval
  simp only [observerBody] at hD
  rw [hD]
  rw [if_pos ⟨by
      show π / 3 - 0 > 10 * π / 180
      linarith [Real.pi_pos],
    by
      show (40 : ℝ) / 2 > 0
      norm_num⟩]
  congr 1
  show (0 + (π / 3 - 0) / 2 : ℝ) = 0 + π / 3 / 2
  ring

/-- Witness for `gapClearanceSound`: in the concrete two-neighbor scenario
(`gapWitnessSim`: neighbors at bearings 0° and 60°, both 100 away) gap
steering returns a steering direction — evaluated in
`socialForce_twoNeighbors_eval` to the unit vector toward the 30° midpoint —
so the soundness theorem applies and yields its clear midpoint. -/
theorem gapClearanceSoundWitness :
    ∃ mid : ℝ,
      getSocialForce gapWitnessSim observerBody [neighborEast, neighborNE] 20
          = steerTowards observerBody mid ∧
      0 < getDistanceToNearestBody gapWitnessSim observerBody mid
            (20 * gapWitnessSim.geoScale) / 2 ∧
      ∀ other ∈ [neighborEast, neighborNE],
        getDistanceToNearestBody gapWitnessSim observerBody mid
            (20 * gapWitnessSim.geoScale) / 2 ≤
          Vec.magnitude (Vec.sub
            (Vec.add observerBody.position (Vec.mult ⟨Real.cos mid, Real.sin mid⟩
              (getDistanceToNearestBody gapWitnessSim observerBody mid
                (20 * gapWitnessSim.geoScale) / 2)))
            other.position) :=
  gapClearanceSound gapWitnessSim observerBody [neighborEast, neighborNE] 20
    (by
      rw [socialForce_twoNeighbors_eval]
      intro heq
      have hm := congrArg Vec.magnitude heq
      rw [steerTowards_magnitude, (Vec.magnitude_eq_zero_iff _).mpr rfl] at hm
      norm_num at hm)
